import Mathlib

/-!
# usrp_io: the duplex streaming engine of liquid-usrp

A shallow embedding of `src/usrp_io.cc`.  The engine object is a record, every
member function is a function on that record, and everything the program does to
the outside world (lines on `std::cout` / `std::cerr`, calls to the hardware
objects `usrp_tx` / `usrp_rx` / the daughterboards, callback invocations, thread
creation) is recorded, in program order, as a list of `Event`s.

The two thread bodies `usrp_io_tx_process` / `usrp_io_rx_process` are modelled
twice, from the same per-iteration functions:

* sequentially, as a function of what the hardware returns in each iteration and
  of the value the shared flag `tx_active` / `rx_active` holds when an iteration
  ends (only other threads write that flag);
* as threads of a small interleaving machine (`System`) whose other actions are
  the calls `start_tx`, `start_rx`, `stop_tx`, `stop_rx` made by the controlling
  thread.
-/

namespace UsrpIo

/-! ## Data model -/

/-- A function pointer of type `usrp_tx_callback`, identified by its address. -/
abbrev usrp_tx_callback := Nat

/-- A function pointer of type `usrp_rx_callback`, identified by its address. -/
abbrev usrp_rx_callback := Nat

/-- The `void *` user context, identified by its address. -/
abbrev Userdata := Nat

/-- C `float` values.  Rounding is not modelled: the values are rationals. -/
abbrev float := ℚ

/-- The C cast `(int)` applied to an `unsigned int` (32 bits, two's complement). -/
def int_cast (n : Nat) : Int :=
  if n % 2 ^ 32 < 2 ^ 31 then ((n % 2 ^ 32 : Nat) : Int)
  else ((n % 2 ^ 32 : Nat) : Int) - 2 ^ 32

/-- The lines the program prints.  Each constructor stands for one literal of
the source; the numbers streamed into a line are its arguments. -/
inductive Msg
  /-- Line "error: usrp_io::start_tx(), only channel 0 currently supported" -/
  | start_tx_channel
  /-- Line "error: usrp_io::start_tx(), tx active" -/
  | start_tx_active
  /-- Line "error: usrp_io::start_rx(), only channel 0 currently supported" -/
  | start_rx_channel
  /-- Line "error: usrp_io::start_rx(), rx active" -/
  | start_rx_active
  /-- Line "usrp_io_tx_process() invoked" -/
  | tx_invoked
  /-- Line "error: usrp_io_tx_process(), tx error" -/
  | tx_error
  /-- Line "warning: usrp_io_tx_process(), usrp attempted to write LEN values
  (RC actually written)" -/
  | tx_count (len : Nat) (rc : Int)
  /-- Line "underrun" -/
  | underrun
  /-- Line "usrp_io_tx_process() terminating" -/
  | tx_terminating
  /-- Line "usrp_io_rx_process() invoked" -/
  | rx_invoked
  /-- Line "error: usrp_io_rx_process(), rx error (RC)" -/
  | rx_error (rc : Int)
  /-- Line "warning: usrp_io_rx_process(), usrp attempted to write LEN values
  (RC actually written)" -/
  | rx_count (len : Nat) (rc : Int)
  /-- Line "overrun" -/
  | overrun
  /-- Line "usrp_io_rx_process() terminating" -/
  | rx_terminating
  deriving DecidableEq

/-- Everything the engine does to its environment. -/
inductive Event
  /-- A line on `std::cout`. -/
  | cout (m : Msg)
  /-- A line on `std::cerr`. -/
  | cerr (m : Msg)
  /-- The statement `throw 0;` (argument: the thrown `int`). -/
  | throw_int (v : Int)
  /-- Source: `pthread_create(&tx_thread, NULL, usrp_io_tx_process, this)` -/
  | pthread_create_tx
  /-- Source: `pthread_create(&rx_thread, NULL, usrp_io_rx_process, this)` -/
  | pthread_create_rx
  /-- Source: `pthread_exit(NULL)` -/
  | pthread_exit
  /-- Source: `usrp_tx->start()` -/
  | usrp_tx_start
  /-- Source: `usrp_tx->write(tx_buffer, len, &underrun)` -/
  | usrp_tx_write (len : Nat)
  /-- Source: `usrp_tx->stop()` -/
  | usrp_tx_stop
  /-- Source: `usrp_rx->start()` -/
  | usrp_rx_start
  /-- Source: `usrp_rx->read(rx_buffer, len, &overrun)` -/
  | usrp_rx_read (len : Nat)
  /-- Source: `usrp_rx->stop()` -/
  | usrp_rx_stop
  /-- Source: `tx_callback0(tx_buffer, len, userdata)` -/
  | tx_callback0 (cb : usrp_tx_callback) (len : Nat) (userdata : Userdata)
  /-- Source: `rx_callback0(rx_buffer, len, userdata)` -/
  | rx_callback0 (cb : usrp_rx_callback) (len : Nat) (userdata : Userdata)
  /-- Source: `tx_db0->set_db_freq(f, db_lo_freq)` -/
  | tx_db0_set_db_freq (f : float)
  /-- Source: `usrp_tx->set_tx_freq(channel, f)` -/
  | usrp_tx_set_tx_freq (channel : Int) (f : float)
  /-- Source: `rx_db0->set_db_freq(f, db_lo_freq)` -/
  | rx_db0_set_db_freq (f : float)
  /-- Source: `usrp_rx->set_rx_freq(channel, f)` -/
  | usrp_rx_set_rx_freq (channel : Int) (f : float)
  deriving DecidableEq

/-- The data members of class `usrp_io` that the member functions read or
write.  The hardware objects and the two sample buffers are external; the
buffers are represented by their declared lengths. -/
structure usrp_io where
  use_complex : Bool
  rx_active : Bool
  tx_active : Bool
  tx_buffer_length : Nat
  rx_buffer_length : Nat
  tx_callback0 : usrp_tx_callback
  rx_callback0 : usrp_rx_callback
  tx_userdata : Userdata
  rx_userdata : Userdata
  deriving DecidableEq

/-- The default constructor `usrp_io::usrp_io()`, for a run in which
`initialize()` finds the hardware it wants (it throws otherwise).  Both buffers
are allocated with 512 elements.  The callback and userdata members are not
initialised by the constructor; they are taken as null. -/
def usrp_io.new : usrp_io where
  use_complex := true
  rx_active := false
  tx_active := false
  tx_buffer_length := 512
  rx_buffer_length := 512
  tx_callback0 := 0
  rx_callback0 := 0
  tx_userdata := 0
  rx_userdata := 0

/-- What a member function leaves behind: the engine, what it did, and the
value it threw, if it threw. -/
structure Result where
  usrp : usrp_io
  events : List Event
  thrown : Option Int
  deriving DecidableEq

/-! ## start -/

/-- Source: `usrp_io::start_tx` -/
def start_tx (u : usrp_io) (_channel : Int) (_callback : usrp_tx_callback)
    (_userdata : Userdata) : Result :=
  if _channel ≠ 0 then
    ⟨u, [.cerr .start_tx_channel, .throw_int 0], some 0⟩
  else if u.tx_active then
    ⟨u, [.cerr .start_tx_active, .throw_int 0], some 0⟩
  else
    ⟨{ u with tx_callback0 := _callback, tx_active := true, tx_userdata := _userdata },
     [.pthread_create_tx], none⟩

/-- Source: `usrp_io::start_rx` -/
def start_rx (u : usrp_io) (_channel : Int) (_callback : usrp_rx_callback)
    (_userdata : Userdata) : Result :=
  if _channel ≠ 0 then
    ⟨u, [.cerr .start_rx_channel, .throw_int 0], some 0⟩
  else if u.rx_active then
    ⟨u, [.cerr .start_rx_active, .throw_int 0], some 0⟩
  else
    ⟨{ u with rx_callback0 := _callback, rx_active := true, rx_userdata := _userdata },
     [.pthread_create_rx], none⟩

/-! ## gain, frequency, decimation

A reference parameter is modelled as an argument (the value the caller's
variable holds at the call) and a result (the value it holds afterwards). -/

/-- Source: `usrp_io::get_tx_gain`: the body is empty. -/
def get_tx_gain (_u : usrp_io) (_channel : Int) (_gain : float) : float := _gain

/-- Source: `usrp_io::get_rx_gain`: the body is empty. -/
def get_rx_gain (_u : usrp_io) (_channel : Int) (_gain : float) : float := _gain

/-- Source: `usrp_io::set_tx_gain`: the body is empty. -/
def set_tx_gain (u : usrp_io) (_channel : Int) (_gain : float) : Result := ⟨u, [], none⟩

/-- Source: `usrp_io::set_rx_gain`: the body is empty. -/
def set_rx_gain (u : usrp_io) (_channel : Int) (_gain : float) : Result := ⟨u, [], none⟩

/-- Source: `usrp_io::get_tx_freq`: `_freq = 0.0f`. -/
def get_tx_freq (_u : usrp_io) (_channel : Int) (_freq : float) : float := 0

/-- Source: `usrp_io::get_rx_freq`: `_freq = 0.0f`. -/
def get_rx_freq (_u : usrp_io) (_channel : Int) (_freq : float) : float := 0

/-- Source: `usrp_io::set_tx_freq`.  `set_db_freq` is the daughterboard: given the
frequency asked for, it yields the value it writes into `db_lo_freq`. -/
def set_tx_freq (set_db_freq : float → float) (u : usrp_io) (_channel : Int)
    (_freq : float) : Result :=
  let db_lo_offset : float := -8000000
  let db_lo_freq_set := _freq + db_lo_offset
  let db_lo_freq := set_db_freq db_lo_freq_set
  let ddc_freq := _freq - db_lo_freq
  ⟨u, [.tx_db0_set_db_freq db_lo_freq_set, .usrp_tx_set_tx_freq _channel ddc_freq], none⟩

/-- Source: `usrp_io::set_rx_freq`.  `set_db_freq` is the daughterboard, as in
`set_tx_freq`. -/
def set_rx_freq (set_db_freq : float → float) (u : usrp_io) (_channel : Int)
    (_freq : float) : Result :=
  let db_lo_offset : float := -8000000
  let db_lo_freq_set := _freq + db_lo_offset
  let db_lo_freq := set_db_freq db_lo_freq_set
  let ddc_freq := _freq - db_lo_freq
  ⟨u, [.rx_db0_set_db_freq db_lo_freq_set, .usrp_rx_set_rx_freq _channel ddc_freq], none⟩

/-- Source: `usrp_io::get_tx_decim`: the body is empty. -/
def get_tx_decim (_u : usrp_io) (_channel : Int) (_decim : Int) : Int := _decim

/-- Source: `usrp_io::get_rx_decim`: the body is empty. -/
def get_rx_decim (_u : usrp_io) (_channel : Int) (_decim : Int) : Int := _decim

/-- Source: `usrp_io::set_tx_decim`: the body is empty. -/
def set_tx_decim (u : usrp_io) (_channel : Int) (_decim : Int) : Result := ⟨u, [], none⟩

/-- Source: `usrp_io::set_rx_decim`: the body is empty. -/
def set_rx_decim (u : usrp_io) (_channel : Int) (_decim : Int) : Result := ⟨u, [], none⟩

/-! ## The thread bodies -/

/-- What the transmit loop meets in one iteration: the value `write` returns,
the value it stores in `underrun`, and the value the shared flag `tx_active`
holds when the iteration ends. -/
structure TxStep where
  rc : Int
  underrun : Bool
  tx_active : Bool
  deriving DecidableEq

/-- What the receive loop meets in one iteration: the value `read` returns,
the value it stores in `overrun`, and the value the shared flag `rx_active`
holds when the iteration ends. -/
structure RxStep where
  rc : Int
  overrun : Bool
  rx_active : Bool
  deriving DecidableEq

/-- How far a thread body got. -/
inductive Status
  /-- The given steps are used up and the loop condition still holds. -/
  | running
  /-- The loop condition failed and the function ran to `pthread_exit`. -/
  | exited
  /-- The function was left through `throw 0`. -/
  | thrown
  deriving DecidableEq

/-- The outcome of a thread body. -/
structure Run where
  usrp : usrp_io
  events : List Event
  status : Status
  deriving DecidableEq

/-- Put events in front of those of a run. -/
def Run.after (ev : List Event) (r : Run) : Run :=
  { r with events := ev ++ r.events }

/-- The body of the `while` loop of `usrp_io_tx_process`: the events of one
iteration and whether it ended in `throw 0`. -/
def tx_iteration (u : usrp_io) (userdata : Userdata) (rc : Int) (underrun : Bool) :
    List Event × Bool :=
  let call := [Event.tx_callback0 u.tx_callback0 u.tx_buffer_length userdata,
               Event.usrp_tx_write u.tx_buffer_length]
  if rc < 0 then
    (call ++ [.cerr .tx_error, .throw_int 0], true)
  else
    (call
      ++ (if rc ≠ int_cast u.tx_buffer_length then
            [.cerr (.tx_count u.tx_buffer_length rc)] else [])
      ++ (if underrun then [.cerr .underrun] else []), false)

/-- The body of the `while` loop of `usrp_io_rx_process`: the events of one
iteration and whether it ended in `throw 0`. -/
def rx_iteration (u : usrp_io) (userdata : Userdata) (rc : Int) (overrun : Bool) :
    List Event × Bool :=
  let call := [Event.usrp_rx_read u.rx_buffer_length]
  if rc < 0 then
    (call ++ [.cerr (.rx_error rc), .throw_int 0], true)
  else
    (call
      ++ (if rc ≠ int_cast u.rx_buffer_length then
            [.cerr (.rx_count u.rx_buffer_length rc)] else [])
      ++ (if overrun then [.cerr .overrun] else [])
      ++ [.rx_callback0 u.rx_callback0 u.rx_buffer_length userdata], false)

/-- What `usrp_io_tx_process` does before its loop. -/
def tx_prologue : List Event := [.cout .tx_invoked, .usrp_tx_start]

/-- What `usrp_io_tx_process` does after its loop. -/
def tx_epilogue : List Event := [.usrp_tx_stop, .cout .tx_terminating, .pthread_exit]

/-- What `usrp_io_rx_process` does before its loop. -/
def rx_prologue : List Event := [.cout .rx_invoked, .usrp_rx_start]

/-- What `usrp_io_rx_process` does after its loop. -/
def rx_epilogue : List Event := [.usrp_rx_stop, .cout .rx_terminating, .pthread_exit]

/-- The `while (usrp->tx_active)` loop of `usrp_io_tx_process` and what follows
it. -/
def tx_loop (u : usrp_io) (userdata : Userdata) : List TxStep → Run
  | [] => if u.tx_active then ⟨u, [], .running⟩ else ⟨u, tx_epilogue, .exited⟩
  | s :: steps =>
    if u.tx_active then
      let it := tx_iteration u userdata s.rc s.underrun
      let u1 := { u with tx_active := s.tx_active }
      if it.2 then ⟨u1, it.1, .thrown⟩
      else (tx_loop u1 userdata steps).after it.1
    else ⟨u, tx_epilogue, .exited⟩

/-- The `while (usrp->rx_active)` loop of `usrp_io_rx_process` and what follows
it. -/
def rx_loop (u : usrp_io) (userdata : Userdata) : List RxStep → Run
  | [] => if u.rx_active then ⟨u, [], .running⟩ else ⟨u, rx_epilogue, .exited⟩
  | s :: steps =>
    if u.rx_active then
      let it := rx_iteration u userdata s.rc s.overrun
      let u1 := { u with rx_active := s.rx_active }
      if it.2 then ⟨u1, it.1, .thrown⟩
      else (rx_loop u1 userdata steps).after it.1
    else ⟨u, rx_epilogue, .exited⟩

/-- Source: `usrp_io_tx_process` -/
def usrp_io_tx_process (u : usrp_io) (steps : List TxStep) : Run :=
  let userdata := u.tx_userdata
  (tx_loop u userdata steps).after tx_prologue

/-- Source: `usrp_io_rx_process` -/
def usrp_io_rx_process (u : usrp_io) (steps : List RxStep) : Run :=
  let userdata := u.rx_userdata
  (rx_loop u userdata steps).after rx_prologue

/-- The values of `tx_active` that the loop condition of `usrp_io_tx_process`
reads: one on entry, and one after every step. -/
def tx_checks (u : usrp_io) (steps : List TxStep) : List Bool :=
  u.tx_active :: steps.map (fun s => s.tx_active)

/-- The values of `rx_active` that the loop condition of `usrp_io_rx_process`
reads: one on entry, and one after every step. -/
def rx_checks (u : usrp_io) (steps : List RxStep) : List Bool :=
  u.rx_active :: steps.map (fun s => s.rx_active)

/-! ## The interleaving machine

The controlling thread calls `start_tx` / `start_rx` / `stop_tx` / `stop_rx`; every
thread created by `pthread_create` runs its body one stretch at a time, and runs
to its end while a `stop` waits for it.  A
stretch is either the prologue, or one evaluation of the loop condition together
with what it leads to (one whole iteration, or the epilogue): a loop looks at its
flag at the top of an iteration and nowhere else. -/

/-- The machine.  A thread that was created and has not run yet is `none`; a
thread standing at its loop condition is `some userdata`, with the value its local
variable `userdata` holds.  A thread that left its loop, through the epilogue or
through `throw 0`, is no longer in the list.  (An exception that nothing catches
ends the whole process; the machine records only that the thread has left its
loop.) -/
structure System where
  usrp : usrp_io
  tx_threads : List (Option Userdata)
  rx_threads : List (Option Userdata)
  events : List Event
  deriving DecidableEq

/-- The machine after the constructor. -/
def System.new : System := ⟨usrp_io.new, [], [], []⟩

/-- What a transmit thread still does, from where it stands, once it finds
`tx_active` cleared: a thread that has not run yet goes through its prologue
first; then the loop condition fails and the epilogue follows. -/
def tx_exit : Option Userdata → List Event
  | none => tx_prologue ++ tx_epilogue
  | some _ => tx_epilogue

/-- What a receive thread still does, from where it stands, once it finds
`rx_active` cleared. -/
def rx_exit : Option Userdata → List Event
  | none => rx_prologue ++ rx_epilogue
  | some _ => rx_epilogue

/-- What the given transmit threads do until all of them have left. -/
def tx_drain : List (Option Userdata) → List Event
  | [] => []
  | t :: ts => tx_exit t ++ tx_drain ts

/-- What the given receive threads do until all of them have left. -/
def rx_drain : List (Option Userdata) → List Event
  | [] => []
  | t :: ts => rx_exit t ++ rx_drain ts

/-- Modelled from the spec: `stop_tx` is declared in `usrp_io.h`, which is not
among the sources.  By §4.2 it is to "signal the loop to exit after its current
iteration, wait for it to fully exit, then release hardware streaming state for
that direction" (the same order in §4.5, and §5: the execution context has fully
exited before `stop` returns).  The signal is the clearing of `tx_active`, the
flag the loop tests at the top of every iteration; during the wait every transmit
thread runs on from its loop condition until it has left; the release is
`usrp_tx->stop()`. -/
def stop_tx (s : System) (_channel : Int) : System :=
  { s with
    usrp := { s.usrp with tx_active := false }
    events := s.events ++ tx_drain s.tx_threads ++ [Event.usrp_tx_stop]
    tx_threads := [] }

/-- Modelled from the spec: `stop_rx` is declared in `usrp_io.h`, which is not
among the sources.  By §4.3 the receive path is symmetric to §4.2: `rx_active` is
cleared, every receive thread runs on from its loop condition until it has left,
and the hardware streaming state is released with `usrp_rx->stop()`. -/
def stop_rx (s : System) (_channel : Int) : System :=
  { s with
    usrp := { s.usrp with rx_active := false }
    events := s.events ++ rx_drain s.rx_threads ++ [Event.usrp_rx_stop]
    rx_threads := [] }

/-- The actions of the machine. -/
inductive Op
  /-- The call `start_tx(channel, callback, userdata)`. -/
  | start_tx (channel : Int) (callback : usrp_tx_callback) (userdata : Userdata)
  /-- The call `start_rx(channel, callback, userdata)`. -/
  | start_rx (channel : Int) (callback : usrp_rx_callback) (userdata : Userdata)
  /-- The call `stop_tx(channel)`. -/
  | stop_tx (channel : Int)
  /-- The call `stop_rx(channel)`. -/
  | stop_rx (channel : Int)
  /-- Transmit thread number `i` runs its next stretch; should that be an
  iteration, `write` returns `rc` and stores `underrun`. -/
  | tx_turn (i : Nat) (rc : Int) (underrun : Bool)
  /-- Receive thread number `i` runs its next stretch; should that be an
  iteration, `read` returns `rc` and stores `overrun`. -/
  | rx_turn (i : Nat) (rc : Int) (overrun : Bool)
  deriving DecidableEq

/-- One action of the machine. -/
def System.step (s : System) : Op → System
  | .start_tx c cb ud =>
    let r := start_tx s.usrp c cb ud
    { s with
      usrp := r.usrp
      events := s.events ++ r.events
      tx_threads :=
        if Event.pthread_create_tx ∈ r.events then s.tx_threads ++ [none]
        else s.tx_threads }
  | .start_rx c cb ud =>
    let r := start_rx s.usrp c cb ud
    { s with
      usrp := r.usrp
      events := s.events ++ r.events
      rx_threads :=
        if Event.pthread_create_rx ∈ r.events then s.rx_threads ++ [none]
        else s.rx_threads }
  | .stop_tx c => stop_tx s c
  | .stop_rx c => stop_rx s c
  | .tx_turn i rc underrun =>
    match s.tx_threads.get? i with
    | none => s
    | some none =>
      { s with
        tx_threads := s.tx_threads.set i (some s.usrp.tx_userdata)
        events := s.events ++ tx_prologue }
    | some (some userdata) =>
      if s.usrp.tx_active then
        let it := tx_iteration s.usrp userdata rc underrun
        { s with
          events := s.events ++ it.1
          tx_threads := if it.2 then s.tx_threads.eraseIdx i else s.tx_threads }
      else
        { s with
          events := s.events ++ tx_epilogue
          tx_threads := s.tx_threads.eraseIdx i }
  | .rx_turn i rc overrun =>
    match s.rx_threads.get? i with
    | none => s
    | some none =>
      { s with
        rx_threads := s.rx_threads.set i (some s.usrp.rx_userdata)
        events := s.events ++ rx_prologue }
    | some (some userdata) =>
      if s.usrp.rx_active then
        let it := rx_iteration s.usrp userdata rc overrun
        { s with
          events := s.events ++ it.1
          rx_threads := if it.2 then s.rx_threads.eraseIdx i else s.rx_threads }
      else
        { s with
          events := s.events ++ rx_epilogue
          rx_threads := s.rx_threads.eraseIdx i }

/-- A sequence of actions, from the left. -/
def System.run (s : System) (ops : List Op) : System := ops.foldl System.step s

/-! ## Reading a trace -/

/-- The count arguments of the receive callback invocations of a trace. -/
def rx_callback_counts (ev : List Event) : List Nat :=
  ev.filterMap fun e => match e with
    | .rx_callback0 _ len _ => some len
    | _ => none

/-- Is the event a `usrp_tx->write`? -/
def Event.is_tx_write : Event → Bool
  | .usrp_tx_write _ => true
  | _ => false

/-- Is the event a `usrp_rx->read`? -/
def Event.is_rx_read : Event → Bool
  | .usrp_rx_read _ => true
  | _ => false

/-- Is the event an invocation of the transmit callback? -/
def Event.is_tx_callback : Event → Bool
  | .tx_callback0 _ _ _ => true
  | _ => false

/-- Is the event an invocation of the receive callback? -/
def Event.is_rx_callback : Event → Bool
  | .rx_callback0 _ _ _ => true
  | _ => false

/-- Is the event the warning of `usrp_io_tx_process` about the number of values
written? -/
def Event.is_tx_warning : Event → Bool
  | .cerr (.tx_count _ _) => true
  | _ => false

/-- Is the event the warning of `usrp_io_rx_process` about the number of values
read? -/
def Event.is_rx_warning : Event → Bool
  | .cerr (.rx_count _ _) => true
  | _ => false

/-- Is the event a call to the hardware streaming interface (start, stop, read,
write) or a callback invocation? -/
def Event.is_call : Event → Bool
  | .usrp_tx_start | .usrp_tx_write _ | .usrp_tx_stop => true
  | .usrp_rx_start | .usrp_rx_read _ | .usrp_rx_stop => true
  | .tx_callback0 _ _ _ | .rx_callback0 _ _ _ => true
  | _ => false

/-- Is the event the line "underrun" on `std::cerr`? -/
def Event.is_underrun : Event → Bool
  | .cerr .underrun => true
  | _ => false

/-- Is the event the line "overrun" on `std::cerr`? -/
def Event.is_overrun : Event → Bool
  | .cerr .overrun => true
  | _ => false

/-- An engine on which both directions have been started on channel 0. -/
def started : usrp_io :=
  (start_rx (start_tx usrp_io.new 0 11 12).usrp 0 21 22).usrp

/-- A hundred full transmit outcomes, the last five with the underrun flag set;
the flag `tx_active` stays set. -/
def hundred_tx : List TxStep :=
  List.replicate 95 ⟨512, false, true⟩ ++ List.replicate 5 ⟨512, true, true⟩

/-- A hundred full receive outcomes, the last five with the overrun flag set;
the flag `rx_active` stays set. -/
def hundred_rx : List RxStep :=
  List.replicate 95 ⟨512, false, true⟩ ++ List.replicate 5 ⟨512, true, true⟩

/-- The list `a, b, a, b, ...` with `n` pairs. -/
def alternate (a b : Event) : Nat → List Event
  | 0 => []
  | n + 1 => a :: b :: alternate a b n

/-! ## Basic facts -/

@[simp] theorem Run.after_events (ev : List Event) (r : Run) :
    (r.after ev).events = ev ++ r.events := rfl

@[simp] theorem Run.after_status (ev : List Event) (r : Run) :
    (r.after ev).status = r.status := rfl

@[simp] theorem Run.after_usrp (ev : List Event) (r : Run) :
    (r.after ev).usrp = r.usrp := rfl

theorem tx_iteration_of_nonneg (u : usrp_io) (ud : Userdata) (rc : Int) (un : Bool)
    (h : 0 ≤ rc) :
    tx_iteration u ud rc un =
      ([Event.tx_callback0 u.tx_callback0 u.tx_buffer_length ud,
        Event.usrp_tx_write u.tx_buffer_length]
        ++ (if rc ≠ int_cast u.tx_buffer_length then
              [Event.cerr (Msg.tx_count u.tx_buffer_length rc)] else [])
        ++ (if un then [Event.cerr Msg.underrun] else []), false) := by
  simp [tx_iteration, not_lt.mpr h]

theorem tx_iteration_of_neg (u : usrp_io) (ud : Userdata) (rc : Int) (un : Bool)
    (h : rc < 0) :
    tx_iteration u ud rc un =
      ([Event.tx_callback0 u.tx_callback0 u.tx_buffer_length ud,
        Event.usrp_tx_write u.tx_buffer_length,
        Event.cerr Msg.tx_error, Event.throw_int 0], true) := by
  simp [tx_iteration, h]

theorem rx_iteration_of_nonneg (u : usrp_io) (ud : Userdata) (rc : Int) (ov : Bool)
    (h : 0 ≤ rc) :
    rx_iteration u ud rc ov =
      ([Event.usrp_rx_read u.rx_buffer_length]
        ++ (if rc ≠ int_cast u.rx_buffer_length then
              [Event.cerr (Msg.rx_count u.rx_buffer_length rc)] else [])
        ++ (if ov then [Event.cerr Msg.overrun] else [])
        ++ [Event.rx_callback0 u.rx_callback0 u.rx_buffer_length ud], false) := by
  simp [rx_iteration, not_lt.mpr h]

theorem rx_iteration_of_neg (u : usrp_io) (ud : Userdata) (rc : Int) (ov : Bool)
    (h : rc < 0) :
    rx_iteration u ud rc ov =
      ([Event.usrp_rx_read u.rx_buffer_length,
        Event.cerr (Msg.rx_error rc), Event.throw_int 0], true) := by
  simp [rx_iteration, h]

theorem rx_callback_counts_append (a b : List Event) :
    rx_callback_counts (a ++ b) = rx_callback_counts a ++ rx_callback_counts b := by
  simp [rx_callback_counts, List.filterMap_append]

/-- Every invocation of the receive callback inside one iteration carries the
declared buffer length. -/
theorem rx_iteration_counts (u : usrp_io) (ud : Userdata) (rc : Int) (ov : Bool) :
    ∀ n ∈ rx_callback_counts (rx_iteration u ud rc ov).1, n = u.rx_buffer_length := by
  intro n hn
  by_cases h : rc < 0
  · rw [rx_iteration_of_neg u ud rc ov h] at hn
    simp [rx_callback_counts] at hn
  · rw [rx_iteration_of_nonneg u ud rc ov (not_lt.mp h)] at hn
    by_cases h1 : rc = int_cast u.rx_buffer_length <;> cases ov <;>
      simp [rx_callback_counts, h1] at hn <;> exact hn

/-- Every invocation of the receive callback by the loop carries the declared
buffer length. -/
theorem rx_loop_counts (steps : List RxStep) :
    ∀ (u : usrp_io) (ud : Userdata),
      ∀ n ∈ rx_callback_counts (rx_loop u ud steps).events, n = u.rx_buffer_length := by
  induction steps with
  | nil =>
    intro u ud n hn
    unfold rx_loop at hn
    split at hn <;> simp [rx_callback_counts, rx_epilogue] at hn
  | cons s steps ih =>
    intro u ud n hn
    unfold rx_loop at hn
    by_cases ha : u.rx_active = true
    · simp only [ha, if_true] at hn
      by_cases ht : (rx_iteration u ud s.rc s.overrun).2 = true
      · simp only [ht, if_true] at hn
        exact rx_iteration_counts u ud s.rc s.overrun n hn
      · rw [Bool.not_eq_true] at ht
        simp only [ht, Bool.false_eq_true, if_false] at hn
        simp only [Run.after_events, rx_callback_counts_append, List.mem_append] at hn
        rcases hn with hn | hn
        · exact rx_iteration_counts u ud s.rc s.overrun n hn
        · exact ih { u with rx_active := s.rx_active } ud n hn
    · simp [ha, rx_callback_counts, rx_epilogue] at hn

theorem tx_checks_cons (u : usrp_io) (s : TxStep) (steps : List TxStep) :
    tx_checks u (s :: steps)
      = u.tx_active :: tx_checks { u with tx_active := s.tx_active } steps := rfl

theorem rx_checks_cons (u : usrp_io) (s : RxStep) (steps : List RxStep) :
    rx_checks u (s :: steps)
      = u.rx_active :: rx_checks { u with rx_active := s.rx_active } steps := rfl

theorem tx_loop_cons (u : usrp_io) (ud : Userdata) (s : TxStep) (steps : List TxStep)
    (ha : u.tx_active = true) (h : 0 ≤ s.rc) :
    tx_loop u ud (s :: steps)
      = (tx_loop { u with tx_active := s.tx_active } ud steps).after
          (tx_iteration u ud s.rc s.underrun).1 := by
  have hf : (tx_iteration u ud s.rc s.underrun).2 = false := by
    rw [tx_iteration_of_nonneg u ud s.rc s.underrun h]
  simp [tx_loop, ha, hf]

theorem rx_loop_cons (u : usrp_io) (ud : Userdata) (s : RxStep) (steps : List RxStep)
    (ha : u.rx_active = true) (h : 0 ≤ s.rc) :
    rx_loop u ud (s :: steps)
      = (rx_loop { u with rx_active := s.rx_active } ud steps).after
          (rx_iteration u ud s.rc s.overrun).1 := by
  have hf : (rx_iteration u ud s.rc s.overrun).2 = false := by
    rw [rx_iteration_of_nonneg u ud s.rc s.overrun h]
  simp [rx_loop, ha, hf]

theorem tx_loop_fault (u : usrp_io) (ud : Userdata) (s : TxStep) (steps : List TxStep)
    (ha : u.tx_active = true) (h : s.rc < 0) :
    tx_loop u ud (s :: steps)
      = ⟨{ u with tx_active := s.tx_active },
         [Event.tx_callback0 u.tx_callback0 u.tx_buffer_length ud,
          Event.usrp_tx_write u.tx_buffer_length,
          Event.cerr Msg.tx_error, Event.throw_int 0], Status.thrown⟩ := by
  simp [tx_loop, ha, tx_iteration_of_neg u ud s.rc s.underrun h]

theorem rx_loop_fault (u : usrp_io) (ud : Userdata) (s : RxStep) (steps : List RxStep)
    (ha : u.rx_active = true) (h : s.rc < 0) :
    rx_loop u ud (s :: steps)
      = ⟨{ u with rx_active := s.rx_active },
         [Event.usrp_rx_read u.rx_buffer_length,
          Event.cerr (Msg.rx_error s.rc), Event.throw_int 0], Status.thrown⟩ := by
  simp [rx_loop, ha, rx_iteration_of_neg u ud s.rc s.overrun h]

/-- What a transmit iteration without a fault contributes to the counts. -/
theorem tx_iteration_tally (u : usrp_io) (ud : Userdata) (rc : Int) (un : Bool)
    (h : 0 ≤ rc) :
    (tx_iteration u ud rc un).1.countP Event.is_tx_write = 1 ∧
    (tx_iteration u ud rc un).1.countP Event.is_tx_callback = 1 ∧
    (tx_iteration u ud rc un).1.countP Event.is_underrun = (if un then 1 else 0) ∧
    (tx_iteration u ud rc un).1.filter Event.is_call
      = [Event.tx_callback0 u.tx_callback0 u.tx_buffer_length ud,
         Event.usrp_tx_write u.tx_buffer_length] := by
  rw [tx_iteration_of_nonneg u ud rc un h]
  by_cases h1 : rc = int_cast u.tx_buffer_length <;> cases un <;>
    simp [Event.is_tx_write, Event.is_tx_callback, Event.is_underrun, Event.is_call, h1]

/-- What a receive iteration without a fault contributes to the counts. -/
theorem rx_iteration_tally (u : usrp_io) (ud : Userdata) (rc : Int) (ov : Bool)
    (h : 0 ≤ rc) :
    (rx_iteration u ud rc ov).1.countP Event.is_rx_read = 1 ∧
    (rx_iteration u ud rc ov).1.countP Event.is_rx_callback = 1 ∧
    (rx_iteration u ud rc ov).1.countP Event.is_overrun = (if ov then 1 else 0) ∧
    (rx_iteration u ud rc ov).1.filter Event.is_call
      = [Event.usrp_rx_read u.rx_buffer_length,
         Event.rx_callback0 u.rx_callback0 u.rx_buffer_length ud] := by
  rw [rx_iteration_of_nonneg u ud rc ov h]
  by_cases h1 : rc = int_cast u.rx_buffer_length <;> cases ov <;>
    simp [Event.is_rx_read, Event.is_rx_callback, Event.is_overrun, Event.is_call, h1]

/-- The transmit loop, over steps without a fault during which the flag stays set
up to the last evaluation but one. -/
theorem tx_loop_tally (steps : List TxStep) :
    ∀ (u : usrp_io) (ud : Userdata), (∀ s ∈ steps, 0 ≤ s.rc) →
      (tx_checks u steps).take steps.length = List.replicate steps.length true →
      (tx_loop u ud steps).status ≠ Status.thrown ∧
      (tx_loop u ud steps).events.countP Event.is_tx_write = steps.length ∧
      (tx_loop u ud steps).events.countP Event.is_tx_callback = steps.length ∧
      (tx_loop u ud steps).events.countP Event.is_underrun
        = steps.countP (fun s => s.underrun) := by
  induction steps with
  | nil =>
    intro u ud _ _
    unfold tx_loop
    split <;> simp [tx_epilogue, Event.is_tx_write, Event.is_tx_callback, Event.is_underrun]
  | cons s steps ih =>
    intro u ud hrc hact
    rw [tx_checks_cons, List.length_cons, List.take_succ_cons, List.replicate_succ,
      List.cons.injEq] at hact
    have h0 : 0 ≤ s.rc := hrc s (List.mem_cons_self _ _)
    obtain ⟨i1, i2, i3, i4⟩ :=
      ih { u with tx_active := s.tx_active } ud
        (fun x hx => hrc x (List.mem_cons_of_mem _ hx)) hact.2
    obtain ⟨t1, t2, t3, _⟩ := tx_iteration_tally u ud s.rc s.underrun h0
    rw [tx_loop_cons u ud s steps hact.1 h0]
    refine ⟨by simpa using i1, ?_, ?_, ?_⟩
    · simp only [Run.after_events, List.countP_append, t1, i2, List.length_cons]; omega
    · simp only [Run.after_events, List.countP_append, t2, i3, List.length_cons]; omega
    · simp only [Run.after_events, List.countP_append, t3, i4, List.countP_cons]
      cases s.underrun <;> simp [Nat.add_comm]

/-- The receive loop, over steps without a fault during which the flag stays set
up to the last evaluation but one. -/
theorem rx_loop_tally (steps : List RxStep) :
    ∀ (u : usrp_io) (ud : Userdata), (∀ s ∈ steps, 0 ≤ s.rc) →
      (rx_checks u steps).take steps.length = List.replicate steps.length true →
      (rx_loop u ud steps).status ≠ Status.thrown ∧
      (rx_loop u ud steps).events.countP Event.is_rx_read = steps.length ∧
      (rx_loop u ud steps).events.countP Event.is_rx_callback = steps.length ∧
      (rx_loop u ud steps).events.countP Event.is_overrun
        = steps.countP (fun s => s.overrun) := by
  induction steps with
  | nil =>
    intro u ud _ _
    unfold rx_loop
    split <;> simp [rx_epilogue, Event.is_rx_read, Event.is_rx_callback, Event.is_overrun]
  | cons s steps ih =>
    intro u ud hrc hact
    rw [rx_checks_cons, List.length_cons, List.take_succ_cons, List.replicate_succ,
      List.cons.injEq] at hact
    have h0 : 0 ≤ s.rc := hrc s (List.mem_cons_self _ _)
    obtain ⟨i1, i2, i3, i4⟩ :=
      ih { u with rx_active := s.rx_active } ud
        (fun x hx => hrc x (List.mem_cons_of_mem _ hx)) hact.2
    obtain ⟨t1, t2, t3, _⟩ := rx_iteration_tally u ud s.rc s.overrun h0
    rw [rx_loop_cons u ud s steps hact.1 h0]
    refine ⟨by simpa using i1, ?_, ?_, ?_⟩
    · simp only [Run.after_events, List.countP_append, t1, i2, List.length_cons]; omega
    · simp only [Run.after_events, List.countP_append, t2, i3, List.length_cons]; omega
    · simp only [Run.after_events, List.countP_append, t3, i4, List.countP_cons]
      cases s.overrun <;> simp [Nat.add_comm]

/-- The transmit loop, over steps without a fault, when the flag is found cleared
after the last of them and not before. -/
theorem tx_loop_calls (steps : List TxStep) :
    ∀ (u : usrp_io) (ud : Userdata), (∀ s ∈ steps, 0 ≤ s.rc) →
      tx_checks u steps = List.replicate steps.length true ++ [false] →
      (tx_loop u ud steps).status = Status.exited ∧
      (tx_loop u ud steps).events.filter Event.is_call
        = alternate (Event.tx_callback0 u.tx_callback0 u.tx_buffer_length ud)
            (Event.usrp_tx_write u.tx_buffer_length) steps.length
          ++ [Event.usrp_tx_stop] := by
  induction steps with
  | nil =>
    intro u ud _ hact
    have ha : u.tx_active = false := by simpa [tx_checks] using hact
    simp [tx_loop, ha, tx_epilogue, Event.is_call, alternate]
  | cons s steps ih =>
    intro u ud hrc hact
    rw [tx_checks_cons, List.length_cons, List.replicate_succ, List.cons_append,
      List.cons.injEq] at hact
    have h0 : 0 ≤ s.rc := hrc s (List.mem_cons_self _ _)
    obtain ⟨i1, i2⟩ :=
      ih { u with tx_active := s.tx_active } ud
        (fun x hx => hrc x (List.mem_cons_of_mem _ hx)) hact.2
    obtain ⟨_, _, _, t4⟩ := tx_iteration_tally u ud s.rc s.underrun h0
    rw [tx_loop_cons u ud s steps hact.1 h0]
    refine ⟨by simpa using i1, ?_⟩
    simp only [Run.after_events, List.filter_append, t4, i2, List.length_cons, alternate,
      List.cons_append, List.nil_append]

/-- The receive loop, over steps without a fault, when the flag is found cleared
after the last of them and not before. -/
theorem rx_loop_calls (steps : List RxStep) :
    ∀ (u : usrp_io) (ud : Userdata), (∀ s ∈ steps, 0 ≤ s.rc) →
      rx_checks u steps = List.replicate steps.length true ++ [false] →
      (rx_loop u ud steps).status = Status.exited ∧
      (rx_loop u ud steps).events.filter Event.is_call
        = alternate (Event.usrp_rx_read u.rx_buffer_length)
            (Event.rx_callback0 u.rx_callback0 u.rx_buffer_length ud) steps.length
          ++ [Event.usrp_rx_stop] := by
  induction steps with
  | nil =>
    intro u ud _ hact
    have ha : u.rx_active = false := by simpa [rx_checks] using hact
    simp [rx_loop, ha, rx_epilogue, Event.is_call, alternate]
  | cons s steps ih =>
    intro u ud hrc hact
    rw [rx_checks_cons, List.length_cons, List.replicate_succ, List.cons_append,
      List.cons.injEq] at hact
    have h0 : 0 ≤ s.rc := hrc s (List.mem_cons_self _ _)
    obtain ⟨i1, i2⟩ :=
      ih { u with rx_active := s.rx_active } ud
        (fun x hx => hrc x (List.mem_cons_of_mem _ hx)) hact.2
    obtain ⟨_, _, _, t4⟩ := rx_iteration_tally u ud s.rc s.overrun h0
    rw [rx_loop_cons u ud s steps hact.1 h0]
    refine ⟨by simpa using i1, ?_⟩
    simp only [Run.after_events, List.filter_append, t4, i2, List.length_cons, alternate,
      List.cons_append, List.nil_append]

/-- The receive loop, when the read of step `s` returns a negative value after a
stretch `pre` of steps without a fault during which the flag stays set. -/
theorem rx_loop_first_fault (s : RxStep) (post : List RxStep) (hs : s.rc < 0)
    (pre : List RxStep) :
    ∀ (u : usrp_io) (ud : Userdata), (∀ x ∈ pre, 0 ≤ x.rc) →
      rx_checks u pre = List.replicate (pre.length + 1) true →
      (rx_loop u ud (pre ++ s :: post)).status = Status.thrown ∧
      (rx_loop u ud (pre ++ s :: post)).events.countP Event.is_rx_read = pre.length + 1 ∧
      (rx_loop u ud (pre ++ s :: post)).events.countP Event.is_rx_callback = pre.length ∧
      ∃ front, (rx_loop u ud (pre ++ s :: post)).events
        = front ++ [Event.usrp_rx_read u.rx_buffer_length,
                    Event.cerr (Msg.rx_error s.rc), Event.throw_int 0] := by
  induction pre with
  | nil =>
    intro u ud _ hact
    have ha : u.rx_active = true := by simpa [rx_checks] using hact
    rw [List.nil_append, rx_loop_fault u ud s post ha hs]
    exact ⟨rfl, by simp [Event.is_rx_read], by simp [Event.is_rx_callback], [], rfl⟩
  | cons x pre ih =>
    intro u ud hrc hact
    rw [rx_checks_cons, List.length_cons, List.replicate_succ, List.cons.injEq] at hact
    have h0 : 0 ≤ x.rc := hrc x (List.mem_cons_self _ _)
    obtain ⟨i1, i2, i3, front, i4⟩ :=
      ih { u with rx_active := x.rx_active } ud
        (fun y hy => hrc y (List.mem_cons_of_mem _ hy)) hact.2
    obtain ⟨t1, t2, _, _⟩ := rx_iteration_tally u ud x.rc x.overrun h0
    rw [List.cons_append, rx_loop_cons u ud x (pre ++ s :: post) hact.1 h0]
    refine ⟨by simpa using i1, ?_, ?_, (rx_iteration u ud x.rc x.overrun).1 ++ front, ?_⟩
    · simp only [Run.after_events, List.countP_append, t1, i2, List.length_cons]; omega
    · simp only [Run.after_events, List.countP_append, t2, i3, List.length_cons]; omega
    · simp only [Run.after_events, i4, List.append_assoc]

/-! ## The claims -/

/-- C1 (as stated, refuted): a read that returns 300 of the 512 values asked for
is followed by a callback invocation whose count argument is 512, not 300. -/
theorem C1_count_is_not_rc :
    rx_callback_counts
        (usrp_io_rx_process { usrp_io.new with rx_active := true } [⟨300, false, false⟩]).events
      = [512] ∧ ((512 : Nat) : Int) ≠ 300 := by
  decide

/-- C1 (amended): in an iteration whose read returns a non-negative `rc`, the
receive callback is invoked exactly once and its count argument is
`rx_buffer_length`, the declared length of the buffer, whatever `rc` is; and every
callback invocation of a whole run of `usrp_io_rx_process` carries that same
count, which is therefore never above the declared length. -/
theorem C1_count_is_buffer_length (u : usrp_io) (ud : Userdata) (rc : Int) (ov : Bool)
    (steps : List RxStep) (h : 0 ≤ rc) :
    rx_callback_counts (rx_iteration u ud rc ov).1 = [u.rx_buffer_length] ∧
    (∀ n ∈ rx_callback_counts (usrp_io_rx_process u steps).events,
        n = u.rx_buffer_length ∧ n ≤ u.rx_buffer_length) := by
  constructor
  · rw [rx_iteration_of_nonneg u ud rc ov h]
    by_cases h1 : rc = int_cast u.rx_buffer_length <;> cases ov <;>
      simp [rx_callback_counts, h1]
  · intro n hn
    have hn2 : n ∈ rx_callback_counts (rx_loop u u.rx_userdata steps).events := by
      simpa [usrp_io_rx_process, rx_callback_counts_append, rx_callback_counts,
        rx_prologue] using hn
    have := rx_loop_counts steps u u.rx_userdata n hn2
    exact ⟨this, le_of_eq this⟩

/-- Witness of C1 (amended): capacity 512, `rc = 300`. -/
theorem C1_count_is_buffer_length_witness :
    (0 : Int) ≤ 300 ∧
    rx_callback_counts (rx_iteration usrp_io.new 7 300 false).1
      = [usrp_io.new.rx_buffer_length] :=
  ⟨by decide,
   (C1_count_is_buffer_length usrp_io.new 7 300 false [] (by decide)).1⟩

theorem tx_warning_count (u : usrp_io) (ud : Userdata) (rc : Int) (flag : Bool) :
    (tx_iteration u ud rc flag).1.countP Event.is_tx_warning
      = if 0 ≤ rc ∧ rc ≠ int_cast u.tx_buffer_length then 1 else 0 := by
  by_cases h : rc < 0
  · rw [tx_iteration_of_neg u ud rc flag h]
    simp [Event.is_tx_warning, not_le.mpr h]
  · rw [tx_iteration_of_nonneg u ud rc flag (not_lt.mp h)]
    by_cases h1 : rc = int_cast u.tx_buffer_length <;> cases flag <;>
      simp [Event.is_tx_warning, not_lt.mp h, h1]

theorem rx_warning_count (u : usrp_io) (ud : Userdata) (rc : Int) (flag : Bool) :
    (rx_iteration u ud rc flag).1.countP Event.is_rx_warning
      = if 0 ≤ rc ∧ rc ≠ int_cast u.rx_buffer_length then 1 else 0 := by
  by_cases h : rc < 0
  · rw [rx_iteration_of_neg u ud rc flag h]
    simp [Event.is_rx_warning, not_le.mpr h]
  · rw [rx_iteration_of_nonneg u ud rc flag (not_lt.mp h)]
    by_cases h1 : rc = int_cast u.rx_buffer_length <;> cases flag <;>
      simp [Event.is_rx_warning, not_lt.mp h, h1]

/-- For an `int` that is at most the `unsigned int` it is compared with, being
different from it after the cast is being smaller. -/
theorem ne_int_cast_iff (n : Nat) (rc : Int) (hn : n < 2 ^ 32) (hrc : rc < 2 ^ 31)
    (h0 : 0 ≤ rc) (hle : rc ≤ (n : Int)) : rc ≠ int_cast n ↔ rc < (n : Int) := by
  unfold int_cast
  rw [Nat.mod_eq_of_lt hn]
  split
  · omega
  · omega

/-- C10: let `rc` be a transfer outcome, an `int` that is at most the declared
buffer length, which is the number of values the transfer is asked for, the
length being an `unsigned int`.  In both directions the iteration prints the
count warning exactly once when `0 ≤ rc < length` and not at all otherwise (not
for a full transfer `rc = length`, not for a negative `rc`); and for `0 ≤ rc`, so
for every such short transfer, the iteration does not throw and the loop goes on
to evaluate its condition again. -/
theorem C10_count_warning (u : usrp_io) (ud : Userdata) (rc : Int) (flag : Bool)
    (hint : rc < 2 ^ 31)
    (htl : u.tx_buffer_length < 2 ^ 32) (hrl : u.rx_buffer_length < 2 ^ 32)
    (htx : rc ≤ (u.tx_buffer_length : Int)) (hrx : rc ≤ (u.rx_buffer_length : Int)) :
    ((tx_iteration u ud rc flag).1.countP Event.is_tx_warning
        = if 0 ≤ rc ∧ rc < (u.tx_buffer_length : Int) then 1 else 0) ∧
    (0 ≤ rc →
      (tx_iteration u ud rc flag).2 = false ∧
      ∀ (active : Bool) (steps : List TxStep), u.tx_active = true →
        tx_loop u ud (⟨rc, flag, active⟩ :: steps)
          = (tx_loop { u with tx_active := active } ud steps).after
              (tx_iteration u ud rc flag).1) ∧
    ((rx_iteration u ud rc flag).1.countP Event.is_rx_warning
        = if 0 ≤ rc ∧ rc < (u.rx_buffer_length : Int) then 1 else 0) ∧
    (0 ≤ rc →
      (rx_iteration u ud rc flag).2 = false ∧
      ∀ (active : Bool) (steps : List RxStep), u.rx_active = true →
        rx_loop u ud (⟨rc, flag, active⟩ :: steps)
          = (rx_loop { u with rx_active := active } ud steps).after
              (rx_iteration u ud rc flag).1) := by
  refine ⟨?_, ?_, ?_, ?_⟩
  · rw [tx_warning_count]
    by_cases h0 : 0 ≤ rc
    · have := ne_int_cast_iff _ rc htl hint h0 htx
      by_cases h1 : rc < (u.tx_buffer_length : Int)
      · rw [if_pos ⟨h0, this.mpr h1⟩, if_pos ⟨h0, h1⟩]
      · rw [if_neg (fun h => h1 (this.mp h.2)), if_neg (fun h => h1 h.2)]
    · rw [if_neg (fun h => h0 h.1), if_neg (fun h => h0 h.1)]
  · intro h0
    refine ⟨by rw [tx_iteration_of_nonneg u ud rc flag h0], ?_⟩
    intro active steps ha
    exact tx_loop_cons u ud ⟨rc, flag, active⟩ steps ha h0
  · rw [rx_warning_count]
    by_cases h0 : 0 ≤ rc
    · have := ne_int_cast_iff _ rc hrl hint h0 hrx
      by_cases h1 : rc < (u.rx_buffer_length : Int)
      · rw [if_pos ⟨h0, this.mpr h1⟩, if_pos ⟨h0, h1⟩]
      · rw [if_neg (fun h => h1 (this.mp h.2)), if_neg (fun h => h1 h.2)]
    · rw [if_neg (fun h => h0 h.1), if_neg (fun h => h0 h.1)]
  · intro h0
    refine ⟨by rw [rx_iteration_of_nonneg u ud rc flag h0], ?_⟩
    intro active steps ha
    exact rx_loop_cons u ud ⟨rc, flag, active⟩ steps ha h0

/-- Witness of C10: 300 values out of 512 draw one warning in each direction. -/
theorem C10_count_warning_witness :
    (tx_iteration usrp_io.new 0 300 false).1.countP Event.is_tx_warning = 1 ∧
    (rx_iteration usrp_io.new 0 300 false).1.countP Event.is_rx_warning = 1 :=
  have h := C10_count_warning usrp_io.new 0 300 false
    (by decide) (by decide) (by decide) (by decide) (by decide)
  ⟨h.1.trans (by decide), h.2.2.1.trans (by decide)⟩

/-- C7: over `n` transmit outcomes with non-negative return values, during which
the flag `tx_active` stays set, `usrp_io_tx_process` does not throw, writes and
calls the callback `n` times, and prints "underrun" exactly as many times as there
are outcomes with the underrun flag set; and the same holds of
`usrp_io_rx_process`, `read`, and "overrun". -/
theorem C7_underrun_overrun_counted (u : usrp_io) (txs : List TxStep) (rxs : List RxStep)
    (htx : ∀ s ∈ txs, 0 ≤ s.rc) (hrx : ∀ s ∈ rxs, 0 ≤ s.rc)
    (hta : (tx_checks u txs).take txs.length = List.replicate txs.length true)
    (hra : (rx_checks u rxs).take rxs.length = List.replicate rxs.length true) :
    ((usrp_io_tx_process u txs).status ≠ Status.thrown ∧
      (usrp_io_tx_process u txs).events.countP Event.is_tx_write = txs.length ∧
      (usrp_io_tx_process u txs).events.countP Event.is_tx_callback = txs.length ∧
      (usrp_io_tx_process u txs).events.countP Event.is_underrun
        = txs.countP (fun s => s.underrun)) ∧
    ((usrp_io_rx_process u rxs).status ≠ Status.thrown ∧
      (usrp_io_rx_process u rxs).events.countP Event.is_rx_read = rxs.length ∧
      (usrp_io_rx_process u rxs).events.countP Event.is_rx_callback = rxs.length ∧
      (usrp_io_rx_process u rxs).events.countP Event.is_overrun
        = rxs.countP (fun s => s.overrun)) := by
  obtain ⟨a1, a2, a3, a4⟩ := tx_loop_tally txs u u.tx_userdata htx hta
  obtain ⟨b1, b2, b3, b4⟩ := rx_loop_tally rxs u u.rx_userdata hrx hra
  refine ⟨⟨?_, ?_, ?_, ?_⟩, ⟨?_, ?_, ?_, ?_⟩⟩
  · simpa [usrp_io_tx_process] using a1
  · simpa [usrp_io_tx_process, tx_prologue, Event.is_tx_write] using a2
  · simpa [usrp_io_tx_process, tx_prologue, Event.is_tx_callback] using a3
  · simpa [usrp_io_tx_process, tx_prologue, Event.is_underrun] using a4
  · simpa [usrp_io_rx_process] using b1
  · simpa [usrp_io_rx_process, rx_prologue, Event.is_rx_read] using b2
  · simpa [usrp_io_rx_process, rx_prologue, Event.is_rx_callback] using b3
  · simpa [usrp_io_rx_process, rx_prologue, Event.is_overrun] using b4

/-- Witness of C7: five underruns (overruns) among a hundred outcomes give five
reports and a hundred iterations. -/
theorem C7_underrun_overrun_counted_witness :
    (usrp_io_tx_process started hundred_tx).events.countP Event.is_tx_write = 100 ∧
    (usrp_io_tx_process started hundred_tx).events.countP Event.is_underrun = 5 ∧
    (usrp_io_rx_process started hundred_rx).events.countP Event.is_rx_read = 100 ∧
    (usrp_io_rx_process started hundred_rx).events.countP Event.is_overrun = 5 := by
  have h := C7_underrun_overrun_counted started hundred_tx hundred_rx
    (by decide) (by decide) (by decide) (by decide)
  have l1 : hundred_tx.length = 100 := by decide
  have l2 : hundred_tx.countP (fun s => s.underrun) = 5 := by decide
  have l3 : hundred_rx.length = 100 := by decide
  have l4 : hundred_rx.countP (fun s => s.overrun) = 5 := by decide
  exact ⟨h.1.2.1.trans l1, h.1.2.2.2.trans l2, h.2.2.1.trans l3, h.2.2.2.2.trans l4⟩

/-- C5: when the read of iteration `k = pre.length + 1` is the first to return a
negative value (the loop having stayed active until then), `usrp_io_rx_process`
is left through `throw 0` in that iteration: it has performed exactly `k` reads,
whatever outcomes were to follow, it has invoked the callback exactly `k - 1`
times, and the last things it did are the faulted read, the error line and the
throw, with no callback invocation after that read. -/
theorem C5_fault_stops_rx_loop (u : usrp_io) (pre : List RxStep) (s : RxStep)
    (post : List RxStep) (hpre : ∀ x ∈ pre, 0 ≤ x.rc) (hs : s.rc < 0)
    (hact : rx_checks u pre = List.replicate (pre.length + 1) true) :
    (usrp_io_rx_process u (pre ++ s :: post)).status = Status.thrown ∧
    (usrp_io_rx_process u (pre ++ s :: post)).events.countP Event.is_rx_read
      = pre.length + 1 ∧
    (usrp_io_rx_process u (pre ++ s :: post)).events.countP Event.is_rx_callback
      = pre.length ∧
    ∃ front, (usrp_io_rx_process u (pre ++ s :: post)).events
      = front ++ [Event.usrp_rx_read u.rx_buffer_length,
                  Event.cerr (Msg.rx_error s.rc), Event.throw_int 0] := by
  obtain ⟨a1, a2, a3, front, a4⟩ :=
    rx_loop_first_fault s post hs pre u u.rx_userdata hpre hact
  refine ⟨?_, ?_, ?_, rx_prologue ++ front, ?_⟩
  · simpa [usrp_io_rx_process] using a1
  · simpa [usrp_io_rx_process, rx_prologue, Event.is_rx_read] using a2
  · simpa [usrp_io_rx_process, rx_prologue, Event.is_rx_callback] using a3
  · simp only [usrp_io_rx_process, Run.after_events, a4, List.append_assoc]

/-- Witness of C5: two good reads, then a read that returns -1, then a read
that would have been good. -/
theorem C5_fault_stops_rx_loop_witness :
    (usrp_io_rx_process started
      ([⟨512, false, true⟩, ⟨300, true, true⟩] ++ ⟨-1, false, true⟩ :: [⟨512, false, true⟩])
      ).events.countP Event.is_rx_callback = 2 :=
  (C5_fault_stops_rx_loop started [⟨512, false, true⟩, ⟨300, true, true⟩] ⟨-1, false, true⟩
    [⟨512, false, true⟩] (by decide) (by decide) (by decide)).2.2.1

/-- C6 (the code at the failing input): on an engine whose two directions were
started, a first transfer that returns -1 ends the thread body through `throw 0`,
in either direction, with the flag `tx_active` / `rx_active` still set and without
`usrp_tx->stop()` / `usrp_rx->stop()` among the things done; the same run with a
good transfer and a cleared flag does call them. -/
theorem C6_fault_skips_release :
    (usrp_io_tx_process started [⟨-1, false, true⟩]).status = Status.thrown ∧
    (usrp_io_tx_process started [⟨-1, false, true⟩]).usrp.tx_active = true ∧
    Event.usrp_tx_stop ∉ (usrp_io_tx_process started [⟨-1, false, true⟩]).events ∧
    (usrp_io_rx_process started [⟨-1, false, true⟩]).status = Status.thrown ∧
    (usrp_io_rx_process started [⟨-1, false, true⟩]).usrp.rx_active = true ∧
    Event.usrp_rx_stop ∉ (usrp_io_rx_process started [⟨-1, false, true⟩]).events ∧
    Event.usrp_tx_stop ∈ (usrp_io_tx_process started [⟨512, false, false⟩]).events ∧
    Event.usrp_rx_stop ∈ (usrp_io_rx_process started [⟨512, false, false⟩]).events := by
  decide

/-- C8: a run of `n` iterations without a fault, in which the flag is found
cleared after the `n`-th iteration and not before, ends in `pthread_exit`, and the
hardware calls and callback invocations of `usrp_io_tx_process` are, in order:
start, then `n` times (callback, write), then stop; those of
`usrp_io_rx_process` are: start, then `n` times (read, callback), then stop. -/
theorem C8_transfer_callback_alternate (u : usrp_io) (txs : List TxStep)
    (rxs : List RxStep) (htx : ∀ s ∈ txs, 0 ≤ s.rc) (hrx : ∀ s ∈ rxs, 0 ≤ s.rc)
    (hta : tx_checks u txs = List.replicate txs.length true ++ [false])
    (hra : rx_checks u rxs = List.replicate rxs.length true ++ [false]) :
    (usrp_io_tx_process u txs).status = Status.exited ∧
    (usrp_io_tx_process u txs).events.filter Event.is_call
      = Event.usrp_tx_start ::
          alternate (Event.tx_callback0 u.tx_callback0 u.tx_buffer_length u.tx_userdata)
            (Event.usrp_tx_write u.tx_buffer_length) txs.length
        ++ [Event.usrp_tx_stop] ∧
    (usrp_io_rx_process u rxs).status = Status.exited ∧
    (usrp_io_rx_process u rxs).events.filter Event.is_call
      = Event.usrp_rx_start ::
          alternate (Event.usrp_rx_read u.rx_buffer_length)
            (Event.rx_callback0 u.rx_callback0 u.rx_buffer_length u.rx_userdata) rxs.length
        ++ [Event.usrp_rx_stop] := by
  obtain ⟨a1, a2⟩ := tx_loop_calls txs u u.tx_userdata htx hta
  obtain ⟨b1, b2⟩ := rx_loop_calls rxs u u.rx_userdata hrx hra
  refine ⟨?_, ?_, ?_, ?_⟩
  · simpa [usrp_io_tx_process] using a1
  · simp [usrp_io_tx_process, tx_prologue, List.filter_cons, Event.is_call, a2]
  · simpa [usrp_io_rx_process] using b1
  · simp [usrp_io_rx_process, rx_prologue, List.filter_cons, Event.is_call, b2]

/-- Witness of C8: three transmit iterations and two receive iterations. -/
theorem C8_transfer_callback_alternate_witness :
    (usrp_io_tx_process started
        [⟨512, false, true⟩, ⟨300, true, true⟩, ⟨512, false, false⟩]).events.filter
        Event.is_call
      = [Event.usrp_tx_start,
         Event.tx_callback0 11 512 12, Event.usrp_tx_write 512,
         Event.tx_callback0 11 512 12, Event.usrp_tx_write 512,
         Event.tx_callback0 11 512 12, Event.usrp_tx_write 512,
         Event.usrp_tx_stop] ∧
    (usrp_io_rx_process started [⟨512, false, true⟩, ⟨100, false, false⟩]).events.filter
        Event.is_call
      = [Event.usrp_rx_start,
         Event.usrp_rx_read 512, Event.rx_callback0 21 512 22,
         Event.usrp_rx_read 512, Event.rx_callback0 21 512 22,
         Event.usrp_rx_stop] :=
  have h := C8_transfer_callback_alternate started
    [⟨512, false, true⟩, ⟨300, true, true⟩, ⟨512, false, false⟩]
    [⟨512, false, true⟩, ⟨100, false, false⟩]
    (by decide) (by decide) (by decide) (by decide)
  ⟨h.2.1, h.2.2.2⟩

/-- C3: on channel 0, `start_tx` with `tx_active` set prints "tx active", throws 0,
creates no thread and returns the engine as it was; as an action of the machine
it changes nothing but the output: the engine (flags, callbacks, userdata) and the
threads of both directions stay as they are.  The same holds of `start_rx` with
`rx_active` set. -/
theorem C3_start_while_active (s : System) (cb : Nat) (ud : Userdata) :
    (s.usrp.tx_active = true →
      start_tx s.usrp 0 cb ud
        = ⟨s.usrp, [Event.cerr Msg.start_tx_active, Event.throw_int 0], some 0⟩ ∧
      s.step (.start_tx 0 cb ud)
        = { s with events := s.events ++ [Event.cerr Msg.start_tx_active, Event.throw_int 0] }) ∧
    (s.usrp.rx_active = true →
      start_rx s.usrp 0 cb ud
        = ⟨s.usrp, [Event.cerr Msg.start_rx_active, Event.throw_int 0], some 0⟩ ∧
      s.step (.start_rx 0 cb ud)
        = { s with events := s.events ++ [Event.cerr Msg.start_rx_active, Event.throw_int 0] }) := by
  constructor
  · intro h
    simp [System.step, start_tx, h]
  · intro h
    simp [System.step, start_rx, h]

/-- Witness of C3: a second `start_tx` with another callback and userdata, while
the loop of the first is running. -/
theorem C3_start_while_active_witness :
    ((System.new.run [.start_tx 0 11 12, .tx_turn 0 0 false]).step (.start_tx 0 33 34)).usrp
        = (System.new.run [.start_tx 0 11 12, .tx_turn 0 0 false]).usrp ∧
    ((System.new.run [.start_tx 0 11 12, .tx_turn 0 0 false]).step (.start_tx 0 33 34)).tx_threads
        = [some 12] :=
  have h := ((C3_start_while_active
    (System.new.run [.start_tx 0 11 12, .tx_turn 0 0 false]) 33 34).1 (by decide)).2
  ⟨by rw [h], by rw [h]; decide⟩

/-- C4: on a channel other than 0, in any state, `start_tx` and `start_rx` print
"only channel 0 currently supported" and throw 0 before anything else: no thread
is created and the engine is returned as it was; as actions of the machine they
change nothing but the output.  What they print is not what a start on an active
direction prints. -/
theorem C4_start_other_channel (s : System) (c : Int) (cb : Nat) (ud : Userdata)
    (hc : c ≠ 0) :
    start_tx s.usrp c cb ud
      = ⟨s.usrp, [Event.cerr Msg.start_tx_channel, Event.throw_int 0], some 0⟩ ∧
    s.step (.start_tx c cb ud)
      = { s with events := s.events ++ [Event.cerr Msg.start_tx_channel, Event.throw_int 0] } ∧
    (start_tx s.usrp c cb ud).events
      ≠ (start_tx { s.usrp with tx_active := true } 0 cb ud).events ∧
    start_rx s.usrp c cb ud
      = ⟨s.usrp, [Event.cerr Msg.start_rx_channel, Event.throw_int 0], some 0⟩ ∧
    s.step (.start_rx c cb ud)
      = { s with events := s.events ++ [Event.cerr Msg.start_rx_channel, Event.throw_int 0] } ∧
    (start_rx s.usrp c cb ud).events
      ≠ (start_rx { s.usrp with rx_active := true } 0 cb ud).events := by
  refine ⟨?_, ?_, ?_, ?_, ?_, ?_⟩ <;> simp [System.step, start_tx, start_rx, hc]

/-- Witness of C4: channel 1, on an engine whose two directions are active. -/
theorem C4_start_other_channel_witness :
    (start_tx started 1 33 34).usrp = started ∧
    (start_tx started 1 33 34).thrown = some 0 ∧
    (start_rx started 1 33 34).usrp = started :=
  have h := C4_start_other_channel ⟨started, [some 12], [some 22], []⟩ 1 33 34 (by decide)
  ⟨by rw [h.1], by rw [h.1], by rw [h.2.2.2.1]⟩

/-- C9 (as stated, refuted): after `set_tx_freq(0, 462e6)` the frequency read back
is 0; after `set_tx_gain(0, 10)` and `set_tx_decim(0, 64)` a variable that held 0
before `get_tx_gain` / `get_tx_decim` still holds 0; and likewise for receive. -/
theorem C9_no_readback :
    get_tx_freq (set_tx_freq id usrp_io.new 0 462000000).usrp 0 0 ≠ 462000000 ∧
    get_rx_freq (set_rx_freq id usrp_io.new 0 462000000).usrp 0 0 ≠ 462000000 ∧
    get_tx_gain (set_tx_gain usrp_io.new 0 10).usrp 0 0 ≠ 10 ∧
    get_rx_gain (set_rx_gain usrp_io.new 0 10).usrp 0 0 ≠ 10 ∧
    get_tx_decim (set_tx_decim usrp_io.new 0 64).usrp 0 0 ≠ 64 ∧
    get_rx_decim (set_rx_decim usrp_io.new 0 64).usrp 0 0 ≠ 64 := by
  refine ⟨?_, ?_, ?_, ?_, ?_, ?_⟩ <;>
    norm_num [get_tx_freq, get_rx_freq, get_tx_gain, get_rx_gain, get_tx_decim, get_rx_decim]

/-- C9 (amended): the setters store nothing in the engine, and the getters read
nothing from it.  In both directions, after `set_*_freq(c, f)` the frequency read
back is 0 whatever `f` was (so it is `f` only for `f = 0`), and after
`set_*_gain(c, g)` / `set_*_decim(c, d)` the getter leaves the caller's variable
at the value `x` it held before the call. -/
theorem C9_getters_ignore_setters (db : float → float) (u : usrp_io) (c : Int)
    (f g x : float) (d y : Int) :
    (set_tx_freq db u c f).usrp = u ∧ (set_rx_freq db u c f).usrp = u ∧
    (set_tx_gain u c g).usrp = u ∧ (set_rx_gain u c g).usrp = u ∧
    (set_tx_decim u c d).usrp = u ∧ (set_rx_decim u c d).usrp = u ∧
    get_tx_freq (set_tx_freq db u c f).usrp c x = 0 ∧
    get_rx_freq (set_rx_freq db u c f).usrp c x = 0 ∧
    get_tx_gain (set_tx_gain u c g).usrp c x = x ∧
    get_rx_gain (set_rx_gain u c g).usrp c x = x ∧
    get_tx_decim (set_tx_decim u c d).usrp c y = y ∧
    get_rx_decim (set_rx_decim u c d).usrp c y = y :=
  ⟨rfl, rfl, rfl, rfl, rfl, rfl, rfl, rfl, rfl, rfl, rfl, rfl⟩

end UsrpIo
